import Mathlib

/-!
Shallow embedding of the glossai interpreter core (src/core/ast.h, ast.cpp,
lexer.cpp, parser.cpp, context.cpp, evaluator.cpp).

Modelling conventions:
* C++ `double` is modelled as `ℚ`.  Every arithmetic fact verified below only
  involves values on which IEEE double arithmetic is exact (small integers and
  short decimal fractions), so the rational model is faithful there.  IEEE
  infinities and NaNs are outside the model; no verified claim touches them.
* Transcendental library calls (std::sin, std::sqrt, ...) and std::pow on a
  non-integer exponent have no exact rational value.  The evaluator is
  parametrised by a `MathFns` bundle supplying those maps, and every theorem
  that quantifies over `MathFns` holds for all choices, so no verified fact
  depends on the stand-ins.
* C++ exceptions are modelled with `Except`; the unbounded while-loop is given
  explicit fuel, and theorems are stated about runs that do not exhaust it.
-/

namespace GlossAI

/- Batteries marks the rational-number kernel operations irreducible; the
concrete evaluations below need them to unfold during elaboration. -/
attribute [local semireducible] Rat.add Rat.mul Rat.sub Rat.inv

/-- Character class of std::isspace in the C locale. -/
def isSpaceC (c : Char) : Bool :=
  c = ' ' || c = Char.ofNat 9 || c = Char.ofNat 10 ||
  c = Char.ofNat 11 || c = Char.ofNat 12 || c = Char.ofNat 13

/-- Character class of std::isdigit in the C locale. -/
def isDigitC (c : Char) : Bool := '0' ≤ c && c ≤ '9'

/-- Character class of std::isalpha in the C locale. -/
def isAlphaC (c : Char) : Bool := ('a' ≤ c && c ≤ 'z') || ('A' ≤ c && c ≤ 'Z')

/-- Character class of std::isalnum in the C locale. -/
def isAlnumC (c : Char) : Bool := isAlphaC c || isDigitC c

/-- ASCII lower-casing, as ::tolower in the C locale. -/
def toLowerC (c : Char) : Char :=
  if 'A' ≤ c && c ≤ 'Z' then Char.ofNat (c.toNat + 32) else c

/-- Decimal digits read into a natural number. -/
def digitsToNat (cs : List Char) : Nat :=
  cs.foldl (fun a c => a * 10 + (c.toNat - 48)) 0

/-- Model of std::stod restricted to finite decimal input: optional leading
whitespace and sign, an integer part, an optional fraction and an optional
decimal exponent; trailing characters are ignored, and a string with no
leading numeric prefix yields `none` (the caller maps that to 0, mirroring
the `catch` in Value::toNumber).  Hexadecimal, infinity and NaN forms are
outside the rational model. -/
def stodQ (s : String) : Option ℚ :=
  let cs := s.data.dropWhile isSpaceC
  let sign : ℚ := if cs.head? = some '-' then -1 else 1
  let cs := if cs.head? = some '-' || cs.head? = some '+' then cs.tail else cs
  let ip := cs.takeWhile isDigitC
  let cs2 := cs.drop ip.length
  let fp := if cs2.head? = some '.' then cs2.tail.takeWhile isDigitC else []
  let cs3 := if cs2.head? = some '.' then (cs2.tail.drop fp.length) else cs2
  if ip.isEmpty && fp.isEmpty then none
  else
    let mant : ℚ := (digitsToNat ip : ℚ) + (digitsToNat fp : ℚ) / ((10 : ℚ) ^ fp.length)
    let expo : ℤ :=
      if cs3.head? = some 'e' || cs3.head? = some 'E' then
        let es := cs3.tail
        let esign : ℤ := if es.head? = some '-' then -1 else 1
        let es := if es.head? = some '-' || es.head? = some '+' then es.tail else es
        let ed := es.takeWhile isDigitC
        if ed.isEmpty then 0 else esign * (digitsToNat ed : ℤ)
      else 0
    some (sign * mant * (10 : ℚ) ^ expo)

/-- Number parse used by Value::toNumber on strings: std::stod with the
conversion failure mapped to 0. -/
def strToQ (s : String) : ℚ := (stodQ s).getD 0

/-- Rendering of a double by the default ostream formatting, modelled exactly
on integer values (`oss << 14.0` prints "14"); non-integer rationals are given
a fraction rendering, which no verified claim inspects. -/
def qToString (q : ℚ) : String :=
  if q.den = 1 then toString q.num else toString q.num ++ "/" ++ toString q.den

/-- Value: the tagged union of ast.h (Null, Boolean, Number, String). -/
inductive Value where
  | null : Value
  | boolean (b : Bool) : Value
  | num (q : ℚ) : Value
  | str (s : String) : Value
deriving DecidableEq, Repr

namespace Value

/-- Value::toNumber (ast.cpp): Number identity, Boolean to 0/1, String via
std::stod with failure giving 0, Null to 0. -/
def toNumber : Value → ℚ
  | .null => 0
  | .boolean b => if b then 1 else 0
  | .num q => q
  | .str s => strToQ s

/-- Value::toBool (ast.cpp): Boolean identity, Number nonzero, String
nonempty, Null false. -/
def toBool : Value → Bool
  | .null => false
  | .boolean b => b
  | .num q => decide (q ≠ 0)
  | .str s => !s.isEmpty

/-- Value::toString (ast.cpp). -/
def toStr : Value → String
  | .null => "null"
  | .boolean b => if b then "true" else "false"
  | .num q => qToString q
  | .str s => s

/-- Value::operator== (ast.cpp): false across different variants, content
comparison within a variant. -/
def veq : Value → Value → Bool
  | .null, .null => true
  | .boolean a, .boolean b => a = b
  | .num a, .num b => a = b
  | .str a, .str b => a = b
  | _, _ => false

/-- Variant tag of a Value, for stating cross-variant facts. -/
def tag : Value → Nat
  | .null => 0
  | .boolean _ => 1
  | .num _ => 2
  | .str _ => 3

/-- Value::operator+ (ast.cpp): string concatenation when either side is a
String, numeric addition otherwise. -/
def vadd (a b : Value) : Value :=
  match a, b with
  | .str _, _ => .str (a.toStr ++ b.toStr)
  | _, .str _ => .str (a.toStr ++ b.toStr)
  | _, _ => .num (a.toNumber + b.toNumber)

/-- Value::operator- (ast.cpp). -/
def vsub (a b : Value) : Value := .num (a.toNumber - b.toNumber)

/-- Value::operator* (ast.cpp). -/
def vmul (a b : Value) : Value := .num (a.toNumber * b.toNumber)

end Value

/-- Token kinds of lexer.h. -/
inductive TokenType where
  | number | string | identifier
  | ifK | elseK | whileK | forK | functionK | procedureK | returnK | printK
  | trueK | falseK | andK | orK | notK | modK | divK
  | plus | minus | multiply | divide | power | assign
  | plusAssign | minusAssign | multiplyAssign | divideAssign
  | increment | decrement
  | equal | notEqual | less | greater | lessEqual | greaterEqual
  | leftParen | rightParen | leftBrace | rightBrace | comma | semicolon
  | endOfFile | invalid
deriving DecidableEq, Repr

/-- Token of lexer.h: kind, literal text, position. -/
structure Token where
  type : TokenType
  value : String
  line : Nat
  column : Nat
deriving DecidableEq, Repr

/-- Position advance over a list of consumed characters (Lexer::advance). -/
def posAdv (p : Nat × Nat) (cs : List Char) : Nat × Nat :=
  cs.foldl (fun q ch => if ch = Char.ofNat 10 then (q.1 + 1, 1) else (q.1, q.2 + 1)) p

/-- Escape mapping inside string literals (Lexer::readString): recognized
escapes are translated, any other escaped character passes through. -/
def escMap (c : Char) : Char :=
  if c = 'n' then Char.ofNat 10
  else if c = 't' then Char.ofNat 9
  else if c = 'r' then Char.ofNat 13
  else c

/-- Body scan of Lexer::readString after the opening quote: collects value
characters handling backslash escapes, terminates at a double quote; `none`
when the input ends first (the unterminated-literal error path). -/
def readStrBody : List Char → Option (List Char × List Char)
  | [] => none
  | c :: rest =>
    if c = Char.ofNat 34 then some ([], rest)
    else if c = Char.ofNat 92 then
      match rest with
      | [] => none
      | e :: rest2 =>
        match readStrBody rest2 with
        | none => none
        | some (v, r) => some (escMap e :: v, r)
    else
      match readStrBody rest with
      | none => none
      | some (v, r) => some (c :: v, r)

/-- Mathematical constants substituted at the identifier stage
(Lexer::readIdentifier): each becomes a Number token with a precomputed
decimal literal. -/
def lexConstants : List (String × String) :=
  [("pi", "3.14159265358979323846"),
   ("e", "2.71828182845904523536"),
   ("tau", "6.28318530717958647692"),
   ("phi", "1.61803398874989484820"),
   ("sqrt2", "1.41421356237309504880"),
   ("sqrt3", "1.73205080756887729353"),
   ("ln2", "0.69314718055994530942"),
   ("ln10", "2.30258509299404568402")]

/-- Keyword table of Lexer::readIdentifier (matched on the lower-cased
spelling). -/
def lexKeywords : List (String × TokenType) :=
  [("if", .ifK), ("else", .elseK), ("while", .whileK), ("for", .forK),
   ("function", .functionK), ("procedure", .procedureK), ("return", .returnK),
   ("print", .printK), ("true", .trueK), ("false", .falseK),
   ("and", .andK), ("or", .orK), ("not", .notK), ("mod", .modK), ("div", .divK)]

/-- Association-list lookup helper. -/
def alistFind {α : Type} (k : String) : List (String × α) → Option α
  | [] => none
  | (k2, v) :: rest => if k = k2 then some v else alistFind k rest

/-- Lexer::readOperator: greedy operator match on the current character and
its successor; unknown characters yield an Invalid token.  Returns the token
and the input remaining after it. -/
def readOperator (c : Char) (cs : List Char) (line col : Nat) : Token × List Char :=
  let two (t : TokenType) (s : String) : Token × List Char := (⟨t, s, line, col⟩, cs.tail)
  let one (t : TokenType) (s : String) : Token × List Char := (⟨t, s, line, col⟩, cs)
  if c = '+' then
    if cs.head? = some '+' then two .increment "++"
    else if cs.head? = some '=' then two .plusAssign "+="
    else one .plus "+"
  else if c = '-' then
    if cs.head? = some '-' then two .decrement "--"
    else if cs.head? = some '=' then two .minusAssign "-="
    else one .minus "-"
  else if c = '*' then
    if cs.head? = some '*' then two .power "**"
    else if cs.head? = some '=' then two .multiplyAssign "*="
    else one .multiply "*"
  else if c = '/' then
    if cs.head? = some '=' then two .divideAssign "/="
    else one .divide "/"
  else if c = '^' then one .power "^"
  else if c = '%' then one .modK "%"
  else if c = '=' then
    if cs.head? = some '=' then two .equal "==" else one .assign "="
  else if c = '!' then
    if cs.head? = some '=' then two .notEqual "!=" else one .notK "!"
  else if c = '<' then
    if cs.head? = some '=' then two .lessEqual "<=" else one .less "<"
  else if c = '>' then
    if cs.head? = some '=' then two .greaterEqual ">=" else one .greater ">"
  else if c = '(' then one .leftParen "("
  else if c = ')' then one .rightParen ")"
  else if c = Char.ofNat 123 then one .leftBrace (String.mk [Char.ofNat 123])
  else if c = Char.ofNat 125 then one .rightBrace (String.mk [Char.ofNat 125])
  else if c = ',' then one .comma ","
  else if c = ';' then one .semicolon ";"
  else one .invalid (String.mk [c])

/-- Main scanning loop of Lexer::tokenize, fuelled by the input length (each
step consumes at least one character, so the fuel never runs out when the
loop is started with more fuel than characters). -/
def lexLoop : Nat → List Char → Nat → Nat → Except String (List Token)
  | 0, _, _, _ => .error "lexer fuel exhausted"
  | _ + 1, [], line, col => .ok [⟨.endOfFile, "", line, col⟩]
  | f + 1, c :: cs, line, col =>
    if isSpaceC c then
      let ws := (c :: cs).takeWhile isSpaceC
      let rest := (c :: cs).drop ws.length
      let p := posAdv (line, col) ws
      lexLoop f rest p.1 p.2
    else if isDigitC c then
      let ds := (c :: cs).takeWhile (fun ch => isDigitC ch || ch = '.')
      let rest := (c :: cs).drop ds.length
      match lexLoop f rest line (col + ds.length) with
      | .error m => .error m
      | .ok toks => .ok (⟨.number, String.mk ds, line, col⟩ :: toks)
    else if c = Char.ofNat 34 || c = Char.ofNat 39 then
      match readStrBody cs with
      | none => .error "Unterminated string literal"
      | some (v, rest) =>
        let consumed := (c :: cs).take ((c :: cs).length - rest.length)
        let p := posAdv (line, col) consumed
        match lexLoop f rest p.1 p.2 with
        | .error m => .error m
        | .ok toks => .ok (⟨.string, String.mk v, line, col⟩ :: toks)
    else if isAlphaC c || c = '_' then
      let id := (c :: cs).takeWhile (fun ch => isAlnumC ch || ch = '_')
      let rest := (c :: cs).drop id.length
      let lower := String.mk (id.map toLowerC)
      let tok : Token :=
        match alistFind lower lexConstants with
        | some lit => ⟨.number, lit, line, col⟩
        | none =>
          match alistFind lower lexKeywords with
          | some ty => ⟨ty, String.mk id, line, col⟩
          | none => ⟨.identifier, String.mk id, line, col⟩
      match lexLoop f rest line (col + id.length) with
      | .error m => .error m
      | .ok toks => .ok (tok :: toks)
    else
      let (tok, rest) := readOperator c cs line col
      let consumed := (c :: cs).length - rest.length
      match lexLoop f rest line (col + consumed) with
      | .error m => .error m
      | .ok toks => .ok (tok :: toks)

/-- Lexer::tokenize: scan the whole input, ending with an EndOfFile token. -/
def tokenize (s : String) : Except String (List Token) :=
  lexLoop (s.length + 1) s.data 1 1

/-- Binary operators of ast.h. -/
inductive BinaryOperator where
  | add | subtract | multiply | divide | power | modOp | divOp
  | equal | notEqual | less | greater | lessEqual | greaterEqual
  | andOp | orOp | assign | plusAssign | minusAssign | multiplyAssign | divideAssign
deriving DecidableEq, Repr

/-- Unary operators of ast.h. -/
inductive UnaryOperator where
  | negate | notOp | preIncrement | postIncrement | preDecrement | postDecrement
deriving DecidableEq, Repr

/-- AST node variants of ast.h.  Ownership structure (unique_ptr trees) is
represented by the inductive itself. -/
inductive AST where
  | literal (v : Value)
  | identifier (name : String)
  | binaryOp (left : AST) (op : BinaryOperator) (right : AST)
  | unaryOp (op : UnaryOperator) (operand : AST)
  | call (fn : AST) (args : List AST)
  | ifN (cond : AST) (thenB : AST) (elseB : Option AST)
  | whileN (cond : AST) (body : AST)
  | forN (ini : AST) (cond : AST) (update : AST) (body : AST)
  | block (stmts : List AST)
  | functionDef (name : String) (params : List String) (body : AST)
  | returnN (value : Option AST)
  | printN (exprs : List AST)
deriving Repr

/-- Parser::currentToken: the head of the remaining tokens, or the same safe
EndOfFile default the C++ returns past the end. -/
def curTok (ts : List Token) : Token := ts.headD ⟨.endOfFile, "", 0, 0⟩

/-- Result of one parsing routine: the node built and the tokens left. -/
abbrev PRes := Except String (AST × List Token)

/-- Parser::consume: accept one token of the expected kind or fail with the
given message. -/
def consumeTok (ty : TokenType) (msg : String) (ts : List Token) :
    Except String (List Token) :=
  if (curTok ts).type = ty then .ok ts.tail else .error msg

mutual

/-- Parser::parseStatement: dispatch on if/while/print/block, otherwise an
expression statement.  (parseForStatement, parseFunctionDeclaration and
parseReturnStatement exist in the source but are never reached from parse,
so no statement form dispatches to them.) -/
def parseStatement (fuel : Nat) (ts : List Token) : PRes :=
  match fuel with
  | 0 => .error "parser fuel exhausted"
  | f + 1 =>
    if (curTok ts).type = .ifK then parseIfStatement f ts
    else if (curTok ts).type = .whileK then parseWhileStatement f ts
    else if (curTok ts).type = .printK then parsePrintStatement f ts
    else if (curTok ts).type = .leftBrace then parseBlock f ts
    else parseExpression f ts

termination_by structural fuel
/-- Parser::parseExpression: alias for assignment parsing. -/
def parseExpression (fuel : Nat) (ts : List Token) : PRes :=
  match fuel with
  | 0 => .error "parser fuel exhausted"
  | f + 1 => parseAssignment f ts

termination_by structural fuel
/-- Parser::parseAssignment: right-associative assignment operators layered
over logical-or; the left side is NOT checked to be an identifier here. -/
def parseAssignment (fuel : Nat) (ts : List Token) : PRes :=
  match fuel with
  | 0 => .error "parser fuel exhausted"
  | f + 1 => do
    let (e, ts1) ← parseLogicalOr f ts
    match (curTok ts1).type with
    | .assign => do
      let (v, ts2) ← parseAssignment f ts1.tail
      .ok (.binaryOp e .assign v, ts2)
    | .plusAssign => do
      let (v, ts2) ← parseAssignment f ts1.tail
      .ok (.binaryOp e .plusAssign v, ts2)
    | .minusAssign => do
      let (v, ts2) ← parseAssignment f ts1.tail
      .ok (.binaryOp e .minusAssign v, ts2)
    | .multiplyAssign => do
      let (v, ts2) ← parseAssignment f ts1.tail
      .ok (.binaryOp e .multiplyAssign v, ts2)
    | .divideAssign => do
      let (v, ts2) ← parseAssignment f ts1.tail
      .ok (.binaryOp e .divideAssign v, ts2)
    | _ => .ok (e, ts1)

termination_by structural fuel
/-- Parser::parseLogicalOr. -/
def parseLogicalOr (fuel : Nat) (ts : List Token) : PRes :=
  match fuel with
  | 0 => .error "parser fuel exhausted"
  | f + 1 => do
    let (e, ts1) ← parseLogicalAnd f ts
    orLoop f e ts1

termination_by structural fuel
/-- Left-associative iteration of the `or` level. -/
def orLoop (fuel : Nat) (e : AST) (ts : List Token) : PRes :=
  match fuel with
  | 0 => .error "parser fuel exhausted"
  | f + 1 =>
    if (curTok ts).type = .orK then do
      let (r, ts1) ← parseLogicalAnd f ts.tail
      orLoop f (.binaryOp e .orOp r) ts1
    else .ok (e, ts)

termination_by structural fuel
/-- Parser::parseLogicalAnd. -/
def parseLogicalAnd (fuel : Nat) (ts : List Token) : PRes :=
  match fuel with
  | 0 => .error "parser fuel exhausted"
  | f + 1 => do
    let (e, ts1) ← parseEquality f ts
    andLoop f e ts1

termination_by structural fuel
/-- Left-associative iteration of the `and` level. -/
def andLoop (fuel : Nat) (e : AST) (ts : List Token) : PRes :=
  match fuel with
  | 0 => .error "parser fuel exhausted"
  | f + 1 =>
    if (curTok ts).type = .andK then do
      let (r, ts1) ← parseEquality f ts.tail
      andLoop f (.binaryOp e .andOp r) ts1
    else .ok (e, ts)

termination_by structural fuel
/-- Parser::parseEquality. -/
def parseEquality (fuel : Nat) (ts : List Token) : PRes :=
  match fuel with
  | 0 => .error "parser fuel exhausted"
  | f + 1 => do
    let (e, ts1) ← parseComparison f ts
    eqLoop f e ts1

termination_by structural fuel
/-- Left-associative iteration of the equality level. -/
def eqLoop (fuel : Nat) (e : AST) (ts : List Token) : PRes :=
  match fuel with
  | 0 => .error "parser fuel exhausted"
  | f + 1 =>
    if (curTok ts).type = .equal then do
      let (r, ts1) ← parseComparison f ts.tail
      eqLoop f (.binaryOp e .equal r) ts1
    else if (curTok ts).type = .notEqual then do
      let (r, ts1) ← parseComparison f ts.tail
      eqLoop f (.binaryOp e .notEqual r) ts1
    else .ok (e, ts)

termination_by structural fuel
/-- Parser::parseComparison. -/
def parseComparison (fuel : Nat) (ts : List Token) : PRes :=
  match fuel with
  | 0 => .error "parser fuel exhausted"
  | f + 1 => do
    let (e, ts1) ← parseTerm f ts
    cmpLoop f e ts1

termination_by structural fuel
/-- Left-associative iteration of the relational level. -/
def cmpLoop (fuel : Nat) (e : AST) (ts : List Token) : PRes :=
  match fuel with
  | 0 => .error "parser fuel exhausted"
  | f + 1 =>
    if (curTok ts).type = .less then do
      let (r, ts1) ← parseTerm f ts.tail
      cmpLoop f (.binaryOp e .less r) ts1
    else if (curTok ts).type = .greater then do
      let (r, ts1) ← parseTerm f ts.tail
      cmpLoop f (.binaryOp e .greater r) ts1
    else if (curTok ts).type = .lessEqual then do
      let (r, ts1) ← parseTerm f ts.tail
      cmpLoop f (.binaryOp e .lessEqual r) ts1
    else if (curTok ts).type = .greaterEqual then do
      let (r, ts1) ← parseTerm f ts.tail
      cmpLoop f (.binaryOp e .greaterEqual r) ts1
    else .ok (e, ts)

termination_by structural fuel
/-- Parser::parseTerm: additive level. -/
def parseTerm (fuel : Nat) (ts : List Token) : PRes :=
  match fuel with
  | 0 => .error "parser fuel exhausted"
  | f + 1 => do
    let (e, ts1) ← parseFactor f ts
    termLoop f e ts1

termination_by structural fuel
/-- Left-associative iteration of the additive level. -/
def termLoop (fuel : Nat) (e : AST) (ts : List Token) : PRes :=
  match fuel with
  | 0 => .error "parser fuel exhausted"
  | f + 1 =>
    if (curTok ts).type = .plus then do
      let (r, ts1) ← parseFactor f ts.tail
      termLoop f (.binaryOp e .add r) ts1
    else if (curTok ts).type = .minus then do
      let (r, ts1) ← parseFactor f ts.tail
      termLoop f (.binaryOp e .subtract r) ts1
    else .ok (e, ts)

termination_by structural fuel
/-- Parser::parseFactor: multiplicative level (`*`, `/`, mod, div). -/
def parseFactor (fuel : Nat) (ts : List Token) : PRes :=
  match fuel with
  | 0 => .error "parser fuel exhausted"
  | f + 1 => do
    let (e, ts1) ← parseUnary f ts
    factorLoop f e ts1

termination_by structural fuel
/-- Left-associative iteration of the multiplicative level. -/
def factorLoop (fuel : Nat) (e : AST) (ts : List Token) : PRes :=
  match fuel with
  | 0 => .error "parser fuel exhausted"
  | f + 1 =>
    if (curTok ts).type = .multiply then do
      let (r, ts1) ← parseUnary f ts.tail
      factorLoop f (.binaryOp e .multiply r) ts1
    else if (curTok ts).type = .divide then do
      let (r, ts1) ← parseUnary f ts.tail
      factorLoop f (.binaryOp e .divide r) ts1
    else if (curTok ts).type = .modK then do
      let (r, ts1) ← parseUnary f ts.tail
      factorLoop f (.binaryOp e .modOp r) ts1
    else if (curTok ts).type = .divK then do
      let (r, ts1) ← parseUnary f ts.tail
      factorLoop f (.binaryOp e .divOp r) ts1
    else .ok (e, ts)

termination_by structural fuel
/-- Parser::parseUnary: prefix minus, not, increment, decrement. -/
def parseUnary (fuel : Nat) (ts : List Token) : PRes :=
  match fuel with
  | 0 => .error "parser fuel exhausted"
  | f + 1 =>
    if (curTok ts).type = .minus then do
      let (e, ts1) ← parseUnary f ts.tail
      .ok (.unaryOp .negate e, ts1)
    else if (curTok ts).type = .notK then do
      let (e, ts1) ← parseUnary f ts.tail
      .ok (.unaryOp .notOp e, ts1)
    else if (curTok ts).type = .increment then do
      let (e, ts1) ← parseUnary f ts.tail
      .ok (.unaryOp .preIncrement e, ts1)
    else if (curTok ts).type = .decrement then do
      let (e, ts1) ← parseUnary f ts.tail
      .ok (.unaryOp .preDecrement e, ts1)
    else parsePostfixExpr f ts

termination_by structural fuel
/-- Parser::parsePostfix: postfix increment and decrement. -/
def parsePostfixExpr (fuel : Nat) (ts : List Token) : PRes :=
  match fuel with
  | 0 => .error "parser fuel exhausted"
  | f + 1 => do
    let (e, ts1) ← parsePower f ts
    if (curTok ts1).type = .increment then .ok (.unaryOp .postIncrement e, ts1.tail)
    else if (curTok ts1).type = .decrement then .ok (.unaryOp .postDecrement e, ts1.tail)
    else .ok (e, ts1)

termination_by structural fuel
/-- Parser::parsePower: right-associative power (the right operand re-enters
parseUnary). -/
def parsePower (fuel : Nat) (ts : List Token) : PRes :=
  match fuel with
  | 0 => .error "parser fuel exhausted"
  | f + 1 => do
    let (e, ts1) ← parseCall f ts
    if (curTok ts1).type = .power then do
      let (r, ts2) ← parseUnary f ts1.tail
      .ok (.binaryOp e .power r, ts2)
    else .ok (e, ts1)

termination_by structural fuel
/-- Parser::parseCall: call suffixes on any primary. -/
def parseCall (fuel : Nat) (ts : List Token) : PRes :=
  match fuel with
  | 0 => .error "parser fuel exhausted"
  | f + 1 => do
    let (e, ts1) ← parsePrimary f ts
    callLoop f e ts1

termination_by structural fuel
/-- Iteration of call suffixes (`while (match(LeftParen))`). -/
def callLoop (fuel : Nat) (e : AST) (ts : List Token) : PRes :=
  match fuel with
  | 0 => .error "parser fuel exhausted"
  | f + 1 =>
    if (curTok ts).type = .leftParen then do
      let (args, ts1) ←
        if (curTok ts.tail).type = .rightParen then .ok (([] : List AST), ts.tail)
        else argsLoop f [] ts.tail
      let ts2 ← consumeTok .rightParen "Expected \x27)\x27 after function arguments" ts1
      callLoop f (.call e args) ts2
    else .ok (e, ts)

termination_by structural fuel
/-- Comma-separated argument list (the do/while loops in parseCall and
parsePrimary, which share this structure). -/
def argsLoop (fuel : Nat) (acc : List AST) (ts : List Token) :
    Except String (List AST × List Token) :=
  match fuel with
  | 0 => .error "parser fuel exhausted"
  | f + 1 => do
    let (a, ts1) ← parseExpression f ts
    if (curTok ts1).type = .comma then argsLoop f (acc ++ [a]) ts1.tail
    else .ok (acc ++ [a], ts1)

termination_by structural fuel
/-- Parser::parsePrimary: literals, identifiers (with an immediate call
form), if-expressions and parenthesized expressions; anything else is an
unexpected token.  There is no case for the True/False keyword tokens. -/
def parsePrimary (fuel : Nat) (ts : List Token) : PRes :=
  match fuel with
  | 0 => .error "parser fuel exhausted"
  | f + 1 =>
    if (curTok ts).type = .number then
      .ok (.literal (.num (strToQ (curTok ts).value)), ts.tail)
    else if (curTok ts).type = .string then
      .ok (.literal (.str (curTok ts).value), ts.tail)
    else if (curTok ts).type = .identifier then
      let name := (curTok ts).value
      let ts1 := ts.tail
      if (curTok ts1).type = .leftParen then do
        let (args, ts2) ←
          if (curTok ts1.tail).type = .rightParen then .ok (([] : List AST), ts1.tail)
          else argsLoop f [] ts1.tail
        let ts3 ← consumeTok .rightParen "Expected \x27)\x27 after function arguments" ts2
        .ok (.call (.identifier name) args, ts3)
      else .ok (.identifier name, ts1)
    else if (curTok ts).type = .ifK then
      parseIfExpression f ts.tail
    else if (curTok ts).type = .leftParen then do
      let (e, ts1) ← parseExpression f ts.tail
      let ts2 ← consumeTok .rightParen "Expected \x27)\x27 after expression" ts1
      .ok (e, ts2)
    else .error ("Unexpected token: " ++ (curTok ts).value)

termination_by structural fuel
/-- Parser::parseIfStatement. -/
def parseIfStatement (fuel : Nat) (ts : List Token) : PRes :=
  match fuel with
  | 0 => .error "parser fuel exhausted"
  | f + 1 => do
    let ts1 ← consumeTok .ifK "Expected \x27if\x27" ts
    let ts2 ← consumeTok .leftParen "Expected \x27(\x27 after \x27if\x27" ts1
    let (cond, ts3) ← parseExpression f ts2
    let ts4 ← consumeTok .rightParen "Expected \x27)\x27 after if condition" ts3
    let (thenB, ts5) ← parseStatement f ts4
    if (curTok ts5).type = .elseK then do
      let (elseB, ts6) ← parseStatement f ts5.tail
      .ok (.ifN cond thenB (some elseB), ts6)
    else .ok (.ifN cond thenB none, ts5)

termination_by structural fuel
/-- Parser::parseIfExpression (the ternary-like form, mandatory else). -/
def parseIfExpression (fuel : Nat) (ts : List Token) : PRes :=
  match fuel with
  | 0 => .error "parser fuel exhausted"
  | f + 1 => do
    let ts1 ← consumeTok .leftParen "Expected \x27(\x27 after \x27if\x27" ts
    let (cond, ts2) ← parseExpression f ts1
    let ts3 ← consumeTok .rightParen "Expected \x27)\x27 after if condition" ts2
    let (thenB, ts4) ← parseExpression f ts3
    let ts5 ← consumeTok .elseK "Expected \x27else\x27 in if expression" ts4
    if (curTok ts5).type = .ifK then do
      let (elseB, ts6) ← parseIfExpression f ts5.tail
      .ok (.ifN cond thenB (some elseB), ts6)
    else do
      let (elseB, ts6) ← parseExpression f ts5
      .ok (.ifN cond thenB (some elseB), ts6)

termination_by structural fuel
/-- Parser::parseWhileStatement. -/
def parseWhileStatement (fuel : Nat) (ts : List Token) : PRes :=
  match fuel with
  | 0 => .error "parser fuel exhausted"
  | f + 1 => do
    let ts1 ← consumeTok .whileK "Expected \x27while\x27" ts
    let ts2 ← consumeTok .leftParen "Expected \x27(\x27 after \x27while\x27" ts1
    let (cond, ts3) ← parseExpression f ts2
    let ts4 ← consumeTok .rightParen "Expected \x27)\x27 after while condition" ts3
    let (body, ts5) ← parseStatement f ts4
    .ok (.whileN cond body, ts5)

termination_by structural fuel
/-- Parser::parsePrintStatement. -/
def parsePrintStatement (fuel : Nat) (ts : List Token) : PRes :=
  match fuel with
  | 0 => .error "parser fuel exhausted"
  | f + 1 => do
    let ts1 ← consumeTok .printK "Expected \x27print\x27" ts
    let (es, ts2) ← printExprsLoop f [] ts1
    .ok (.printN es, ts2)
/-- Comma loop of parsePrintStatement (a do/while that also stops when the
current token is EndOfFile after consuming a comma). -/
def printExprsLoop (fuel : Nat) (acc : List AST) (ts : List Token) :
    Except String (List AST × List Token) :=
  match fuel with
  | 0 => .error "parser fuel exhausted"
  | f + 1 => do
    let (e, ts1) ← parseExpression f ts
    if (curTok ts1).type = .comma then
      if (curTok ts1.tail).type = .endOfFile then .ok (acc ++ [e], ts1.tail)
      else printExprsLoop f (acc ++ [e]) ts1.tail
    else .ok (acc ++ [e], ts1)

termination_by structural fuel
/-- Parser::parseBlock. -/
def parseBlock (fuel : Nat) (ts : List Token) : PRes :=
  match fuel with
  | 0 => .error "parser fuel exhausted"
  | f + 1 => do
    let ts1 ← consumeTok .leftBrace "Expected \x27\x7b\x27" ts
    let (stmts, ts2) ← blockStmtsLoop f [] ts1
    let ts3 ← consumeTok .rightBrace "Expected \x27\x7d\x27" ts2
    .ok (.block stmts, ts3)

termination_by structural fuel
/-- Statement loop of parseBlock, tolerating one semicolon between
statements. -/
def blockStmtsLoop (fuel : Nat) (acc : List AST) (ts : List Token) :
    Except String (List AST × List Token) :=
  match fuel with
  | 0 => .error "parser fuel exhausted"
  | f + 1 =>
    if (curTok ts).type ≠ .rightBrace ∧ (curTok ts).type ≠ .endOfFile then do
      let (s, ts1) ← parseStatement f ts
      let ts2 := if (curTok ts1).type = .semicolon then ts1.tail else ts1
      blockStmtsLoop f (acc ++ [s]) ts2
    else .ok (acc, ts)

termination_by structural fuel
end

/-- Parser::parse: run parseStatement on the token sequence; leftover tokens
after one statement are ignored, and any raised error is surfaced.  The fuel
is ample for the nesting depth any token sequence can demand. -/
def parse (tokens : List Token) : Except String AST :=
  match parseStatement ((tokens.length + 1) * 32) tokens with
  | .ok (ast, _) => .ok ast
  | .error m => .error m

/-- UserFunction of context.h: name, parameter names and a (possibly absent)
body reference. -/
structure UserFunction where
  name : String := ""
  parameters : List String := []
  body : Option AST := none

/-- One variable scope: a name-to-value mapping (std::unordered_map), with
insertion order irrelevant to lookups. -/
abbrev Scope := List (String × Value)

/-- Context of context.h: the scope stack plus the function table.  The head
of `scopes` is the innermost scope (the back of the C++ vector). -/
structure Ctx where
  scopes : List Scope
  funcs : List (String × UserFunction)

/-- Map update for one scope (`m_variableScopes.back()[name] = value`). -/
def setAssoc (s : Scope) (n : String) (v : Value) : Scope :=
  if s.any (fun p => p.1 = n) then s.map (fun p => if p.1 = n then (n, v) else p)
  else (n, v) :: s

namespace Ctx

/-- Context::Context: constructed with one (global) scope already pushed. -/
def initial : Ctx := { scopes := [[]], funcs := [] }

/-- Context::pushScope. -/
def pushScope (c : Ctx) : Ctx := { c with scopes := [] :: c.scopes }

/-- Context::popScope: pops only while more than the global scope remains. -/
def popScope (c : Ctx) : Ctx :=
  if c.scopes.length > 1 then { c with scopes := c.scopes.tail } else c

/-- Context::findVariable: innermost-to-outermost scan. -/
def findVar (n : String) : List Scope → Option Value
  | [] => none
  | s :: rest =>
    match alistFind n s with
    | some v => some v
    | none => findVar n rest

/-- Context::hasVariable. -/
def hasVariable (c : Ctx) (n : String) : Bool := (findVar n c.scopes).isSome

/-- Context::getVariable: the found value, or a Null Value when absent. -/
def getVariable (c : Ctx) (n : String) : Value := (findVar n c.scopes).getD .null

/-- Context::setVariable: writes into the innermost scope only (guarded on a
nonempty scope stack, as in the source). -/
def setVariable (c : Ctx) (n : String) (v : Value) : Ctx :=
  match c.scopes with
  | [] => c
  | s :: rest => { c with scopes := setAssoc s n v :: rest }

/-- Context::removeVariable: erases from the innermost scope only. -/
def removeVariable (c : Ctx) (n : String) : Ctx :=
  match c.scopes with
  | [] => c
  | s :: rest => { c with scopes := s.filter (fun p => p.1 ≠ n) :: rest }

/-- Context::clear: reset to a single empty global scope and an empty
function table. -/
def clear (_c : Ctx) : Ctx := { scopes := [[]], funcs := [] }

/-- Context::getScopeDepth. -/
def getScopeDepth (c : Ctx) : Nat := c.scopes.length

end Ctx

/-- One Context mutation, for stating the scope-stack invariant over
arbitrary operation sequences. -/
inductive CtxOp where
  | push
  | pop
  | clearOp
  | setVar (n : String) (v : Value)
  | removeVar (n : String)

/-- Apply one CtxOp. -/
def applyOp (c : Ctx) : CtxOp → Ctx
  | .push => c.pushScope
  | .pop => c.popScope
  | .clearOp => c.clear
  | .setVar n v => c.setVariable n v
  | .removeVar n => c.removeVariable n

/-- Apply a sequence of CtxOps left to right. -/
def applyOps (c : Ctx) (ops : List CtxOp) : Ctx := ops.foldl applyOp c

/-- Stand-ins for the C math library calls whose exact values have no
rational representation.  The evaluator is parametrised over this bundle and
the verified theorems hold for every choice of it. -/
structure MathFns where
  sinQ : ℚ → ℚ
  cosQ : ℚ → ℚ
  tanQ : ℚ → ℚ
  expQ : ℚ → ℚ
  sqrtQ : ℚ → ℚ
  logQ : ℚ → ℚ
  log10Q : ℚ → ℚ
  cbrtQ : ℚ → ℚ
  powNonIntQ : ℚ → ℚ → ℚ

/-- Model of std::pow: exact integer-exponent powers (where IEEE double pow
is exact on the magnitudes the verified claims use), deferring to the
`MathFns` stand-in on a non-integer exponent. -/
def fpow (M : MathFns) (b e : ℚ) : ℚ :=
  if e.den = 1 then
    if 0 ≤ e.num then b ^ e.num.toNat else (b ^ e.num.natAbs)⁻¹
  else M.powNonIntQ b e

/-- Model of std::trunc applied to a rational: round toward zero. -/
def qtrunc (q : ℚ) : ℚ := ((Int.tdiv q.num (q.den : Int) : Int) : ℚ)

/-- Model of std::fmod on rationals: x - trunc(x/y)*y (callers guard y ≠ 0). -/
def qfmod (x y : ℚ) : ℚ := x - qtrunc (x / y) * y

/-- M_PI macro literal of evaluator.cpp. -/
def mPi : ℚ := 3.14159265358979323846

/-- M_E macro literal of evaluator.cpp. -/
def mE : ℚ := 2.71828182845904523536

/-- Evaluation errors: a thrown std::runtime_error message, or exhaustion of
the explicit fuel that replaces unbounded looping. -/
inductive EvalErr where
  | runtime (msg : String)
  | outOfFuel
deriving DecidableEq, Repr

/-- Value::operator/ (ast.cpp): throws on a zero-coercing divisor. -/
def Value.vdiv (a b : Value) : Except EvalErr Value :=
  if b.toNumber = 0 then .error (.runtime "Division by zero")
  else .ok (.num (a.toNumber / b.toNumber))

/-- Evaluator traversal state: the context pointer target, the m_hasReturned
flag, the m_result slot, and the text printed so far (std::cout). -/
structure St where
  ctx : Ctx
  hasReturned : Bool
  result : Value
  output : String

/-- Membership of the five assignment operators, mirroring the if-chain at
the top of Evaluator::visit(BinaryOpNode*). -/
def isAssignOp : BinaryOperator → Bool
  | .assign | .plusAssign | .minusAssign | .multiplyAssign | .divideAssign => true
  | _ => false

/-- Non-assignment, non-logical arm of Evaluator::visit(BinaryOpNode*): the
switch applied after both operands are evaluated.  Equality and ordering
compare numeric coercions (toNumber), not variants. -/
def binArith (M : MathFns) (op : BinaryOperator) (l r : Value) : Except EvalErr Value :=
  match op with
  | .add => .ok (l.vadd r)
  | .subtract => .ok (l.vsub r)
  | .multiply => .ok (l.vmul r)
  | .divide =>
    if r.toNumber = 0 then .error (.runtime "Division by zero") else l.vdiv r
  | .power => .ok (.num (fpow M l.toNumber r.toNumber))
  | .modOp =>
    if r.toNumber = 0 then .error (.runtime "Modulo by zero")
    else .ok (.num (qfmod l.toNumber r.toNumber))
  | .divOp =>
    if r.toNumber = 0 then .error (.runtime "Integer division by zero")
    else .ok (.num (qtrunc (l.toNumber / r.toNumber)))
  | .equal => .ok (.boolean (decide (l.toNumber = r.toNumber)))
  | .notEqual => .ok (.boolean (decide (l.toNumber ≠ r.toNumber)))
  | .less => .ok (.boolean (decide (l.toNumber < r.toNumber)))
  | .greater => .ok (.boolean (decide (l.toNumber > r.toNumber)))
  | .lessEqual => .ok (.boolean (decide (l.toNumber ≤ r.toNumber)))
  | .greaterEqual => .ok (.boolean (decide (l.toNumber ≥ r.toNumber)))
  | _ => .error (.runtime "Unsupported binary operator")

/-- Evaluator::evaluateBuiltinFunction: the name-and-arity if-chain, its
domain checks, and the unknown-function error. -/
def evaluateBuiltinFunction (M : MathFns) (name : String) (args : List Value) :
    Except EvalErr Value :=
  let a0 := (args.getD 0 .null).toNumber
  let a1 := (args.getD 1 .null).toNumber
  if name = "sin" ∧ args.length = 1 then .ok (.num (M.sinQ a0))
  else if name = "cos" ∧ args.length = 1 then .ok (.num (M.cosQ a0))
  else if name = "tan" ∧ args.length = 1 then .ok (.num (M.tanQ a0))
  else if name = "sqrt" ∧ args.length = 1 then
    if a0 < 0 then .error (.runtime "Square root of negative number")
    else .ok (.num (M.sqrtQ a0))
  else if name = "log" ∧ args.length = 1 then
    if a0 ≤ 0 then .error (.runtime "Logarithm of non-positive number")
    else .ok (.num (M.logQ a0))
  else if name = "log10" ∧ args.length = 1 then
    if a0 ≤ 0 then .error (.runtime "Log10 of non-positive number")
    else .ok (.num (M.log10Q a0))
  else if name = "exp" ∧ args.length = 1 then .ok (.num (M.expQ a0))
  else if name = "abs" ∧ args.length = 1 then .ok (.num |a0|)
  else if name = "pow" ∧ args.length = 2 then .ok (.num (fpow M a0 a1))
  else if name = "min" ∧ args.length = 2 then .ok (.num (min a0 a1))
  else if name = "max" ∧ args.length = 2 then .ok (.num (max a0 a1))
  else if name = "root" ∧ args.length = 2 then
    if a0 = 0 then .error (.runtime "Root degree cannot be zero")
    else if a1 < 0 ∧ qfmod a0 2 = 0 then .error (.runtime "Even root of negative number")
    else .ok (.num (fpow M a1 (1 / a0)))
  else if name = "cbrt" ∧ args.length = 1 then .ok (.num (M.cbrtQ a0))
  else
    .error (.runtime ("Unknown function: " ++ name ++ " with " ++
      toString args.length ++ " arguments"))

mutual

/-- Evaluator::evaluate followed by the visit dispatch: resets m_hasReturned
and m_result, then runs the per-node visitor.  The C++ returns m_result; here
the caller reads `result` from the returned state. -/
def eval (M : MathFns) (fuel : Nat) (node : AST) (st0 : St) : Except EvalErr St :=
  match fuel with
  | 0 => .error .outOfFuel
  | f + 1 =>
    let st : St := { st0 with hasReturned := false, result := .null }
    match node with
    | .literal v => .ok { st with result := v }
    | .identifier name =>
      if name = "pi" then .ok { st with result := .num mPi }
      else if name = "e" then .ok { st with result := .num mE }
      else if st.ctx.hasVariable name then
        .ok { st with result := st.ctx.getVariable name }
      else .error (.runtime ("Undefined variable: " ++ name))
    | .binaryOp l op r =>
      if isAssignOp op then
        match l with
        | .identifier name => do
          let st1 ← eval M f r st
          if op = .assign then
            .ok { st1 with ctx := st1.ctx.setVariable name st1.result,
                           result := st1.result }
          else
            if st1.ctx.hasVariable name then do
              let current := st1.ctx.getVariable name
              let newV ←
                if op = .plusAssign then .ok (current.vadd st1.result)
                else if op = .minusAssign then .ok (current.vsub st1.result)
                else if op = .multiplyAssign then .ok (current.vmul st1.result)
                else current.vdiv st1.result
              .ok { st1 with ctx := st1.ctx.setVariable name newV, result := newV }
            else
              .error (.runtime ("Variable not found for compound assignment: " ++ name))
        | _ => .error (.runtime "Invalid assignment target")
      else do
        let st1 ← eval M f l st
        if op = .andOp then
          if st1.result.toBool = false then .ok { st1 with result := .boolean false }
          else do
            let st2 ← eval M f r st1
            .ok { st2 with result := .boolean st2.result.toBool }
        else if op = .orOp then
          if st1.result.toBool then .ok { st1 with result := .boolean true }
          else do
            let st2 ← eval M f r st1
            .ok { st2 with result := .boolean st2.result.toBool }
        else do
          let st2 ← eval M f r st1
          let v ← binArith M op st1.result st2.result
          .ok { st2 with result := v }
    | .unaryOp op e =>
      match op with
      | .negate => do
        let st1 ← eval M f e st
        .ok { st1 with result := .num (-st1.result.toNumber) }
      | .notOp => do
        let st1 ← eval M f e st
        .ok { st1 with result := .boolean (!st1.result.toBool) }
      | .preIncrement =>
        match e with
        | .identifier name =>
          if st.ctx.hasVariable name then
            let newV : Value := .num ((st.ctx.getVariable name).toNumber + 1)
            .ok { st with ctx := st.ctx.setVariable name newV, result := newV }
          else .error (.runtime ("Variable not found for pre-increment: " ++ name))
        | _ => .error (.runtime "Pre-increment can only be applied to variables")
      | .postIncrement =>
        match e with
        | .identifier name =>
          if st.ctx.hasVariable name then
            let current := st.ctx.getVariable name
            let newV : Value := .num (current.toNumber + 1)
            .ok { st with ctx := st.ctx.setVariable name newV, result := current }
          else .error (.runtime ("Variable not found for post-increment: " ++ name))
        | _ => .error (.runtime "Post-increment can only be applied to variables")
      | .preDecrement =>
        match e with
        | .identifier name =>
          if st.ctx.hasVariable name then
            let newV : Value := .num ((st.ctx.getVariable name).toNumber - 1)
            .ok { st with ctx := st.ctx.setVariable name newV, result := newV }
          else .error (.runtime ("Variable not found for pre-decrement: " ++ name))
        | _ => .error (.runtime "Pre-decrement can only be applied to variables")
      | .postDecrement =>
        match e with
        | .identifier name =>
          if st.ctx.hasVariable name then
            let current := st.ctx.getVariable name
            let newV : Value := .num (current.toNumber - 1)
            .ok { st with ctx := st.ctx.setVariable name newV, result := current }
          else .error (.runtime ("Variable not found for post-decrement: " ++ name))
        | _ => .error (.runtime "Post-decrement can only be applied to variables")
    | .call fn args =>
      match fn with
      | .identifier name => do
        let (vals, st1) ← evalArgs M f args st
        let v ← evaluateBuiltinFunction M name vals
        .ok { st1 with result := v }
      | _ => .error (.runtime "Invalid function call")
    | .ifN cond thenB elseB => do
      let stc ← eval M f cond st
      if stc.result.toBool then eval M f thenB stc
      else
        match elseB with
        | some e => eval M f e stc
        | none => .ok { stc with result := .null }
    | .whileN cond body => whileLoop M f cond body { st with result := .null }
    | .forN _ _ _ _ => .error (.runtime "For loops not yet implemented")
    | .block stmts => blockLoop M f stmts st .null
    | .functionDef _ _ _ => .error (.runtime "Function definitions not yet implemented")
    | .returnN v =>
      match v with
      | some e => do
        let st1 ← eval M f e st
        .ok { st1 with hasReturned := true }
      | none => .ok { st with result := .null, hasReturned := true }
    | .printN exprs => do
      let (out, st1) ← printLoop M f exprs st ""
      .ok { st1 with result := .null,
                     output := st1.output ++ out ++ String.mk [Char.ofNat 10] }

termination_by structural fuel
/-- Loop of Evaluator::visit(WhileNode*).  When the condition turns false the
loop breaks with m_result still holding the condition's value (the inner
evaluate call wrote it), exactly as the source does. -/
def whileLoop (M : MathFns) (fuel : Nat) (cond body : AST) (st : St) :
    Except EvalErr St :=
  match fuel with
  | 0 => .error .outOfFuel
  | f + 1 => do
    let stc ← eval M f cond st
    if stc.result.toBool = false then .ok stc
    else do
      let stb ← eval M f body stc
      if stb.hasReturned then .ok stb
      else whileLoop M f cond body stb

termination_by structural fuel
/-- Statement loop of Evaluator::visit(BlockNode*): evaluates in order,
stops at an early return, sets m_result to the last statement's value.  Note
the source pushes and pops no scope here. -/
def blockLoop (M : MathFns) (fuel : Nat) (stmts : List AST) (st : St)
    (lastResult : Value) : Except EvalErr St :=
  match fuel with
  | 0 => .error .outOfFuel
  | f + 1 =>
    match stmts with
    | [] => .ok { st with result := lastResult }
    | s :: rest => do
      let st1 ← eval M f s st
      if st1.hasReturned then .ok st1
      else blockLoop M f rest st1 st1.result

termination_by structural fuel
/-- Argument evaluation of Evaluator::visit(FunctionCallNode*): left to
right, collecting values. -/
def evalArgs (M : MathFns) (fuel : Nat) (args : List AST) (st : St) :
    Except EvalErr (List Value × St) :=
  match fuel with
  | 0 => .error .outOfFuel
  | f + 1 =>
    match args with
    | [] => .ok ([], st)
    | a :: rest => do
      let st1 ← eval M f a st
      let (vs, st2) ← evalArgs M f rest st1
      .ok (st1.result :: vs, st2)

termination_by structural fuel
/-- Expression loop of Evaluator::visit(PrintNode*): concatenates the string
forms with no separator. -/
def printLoop (M : MathFns) (fuel : Nat) (exprs : List AST) (st : St)
    (acc : String) : Except EvalErr (String × St) :=
  match fuel with
  | 0 => .error .outOfFuel
  | f + 1 =>
    match exprs with
    | [] => .ok (acc, st)
    | e :: rest => do
      let st1 ← eval M f e st
      printLoop M f rest st1 (acc ++ st1.result.toStr)

termination_by structural fuel
end

/-- Fresh traversal state over a given context. -/
def initialSt (c : Ctx) : St := { ctx := c, hasReturned := false, result := .null, output := "" }

/-- Error of the whole pipeline. -/
inductive RunErr where
  | lexErr (msg : String)
  | parseErr (msg : String)
  | evalErr (e : EvalErr)
deriving DecidableEq, Repr

/-- Full pipeline of Interpreter::execute up to the evaluated Value:
tokenize, parse, evaluate against a context, returning the value and the
mutated context. -/
def runWith (M : MathFns) (fuel : Nat) (s : String) (c : Ctx) :
    Except RunErr (Value × Ctx) :=
  match tokenize s with
  | .error m => .error (.lexErr m)
  | .ok toks =>
    match parse toks with
    | .error m => .error (.parseErr m)
    | .ok ast =>
      match eval M fuel ast (initialSt c) with
      | .error e => .error (.evalErr e)
      | .ok st => .ok (st.result, st.ctx)

/-- Concrete MathFns instance used by closed witness statements; every
universally quantified theorem also holds at it. -/
def M0 : MathFns :=
  { sinQ := fun _ => 0, cosQ := fun _ => 0, tanQ := fun _ => 0,
    expQ := fun _ => 0, sqrtQ := fun _ => 0, logQ := fun _ => 0,
    log10Q := fun _ => 0, cbrtQ := fun _ => 0, powNonIntQ := fun _ _ => 0 }

/-- Pipeline prefix up to the parser, for claims about parse-time outcomes. -/
def parseSource (s : String) : Except RunErr AST :=
  match tokenize s with
  | .error m => .error (.lexErr m)
  | .ok toks =>
    match parse toks with
    | .error m => .error (.parseErr m)
    | .ok ast => .ok ast

/-- Prefix test on character lists. -/
def isPrefixCs : List Char → List Char → Bool
  | [], _ => true
  | _ :: _, [] => false
  | a :: as, b :: bs => a = b && isPrefixCs as bs

/-- Occurrence of a needle at any position of the haystack. -/
def containsAux (needle : List Char) : List Char → Bool
  | [] => isPrefixCs needle []
  | c :: rest => isPrefixCs needle (c :: rest) || containsAux needle rest

/-- Substring containment test ("message contains zero"). -/
def containsSub (hay needle : String) : Bool :=
  containsAux needle.data hay.data

/-- Discriminates AST nodes that are not identifiers (the dynamic_cast
failure branch of the assignment case). -/
def notIdentifier : AST → Bool
  | .identifier _ => false
  | _ => true




set_option maxHeartbeats 1000000

/-- C6: for the spec's well-formed arithmetic examples over literals and
`+ - * / **`, evaluation follows the precedence ladder (multiplicative over
additive, power over multiplicative) and power is right-associative:
"2 + 3 * 4" evaluates to 14, "(2 + 3) * 4" to 20, and "2 ** 3 ** 2" to 512,
for every choice of math-library stand-ins. -/
theorem c6_precedence_examples (M : MathFns) :
    runWith M 20 "2 + 3 * 4" Ctx.initial = .ok (.num 14, Ctx.initial) ∧
    runWith M 20 "(2 + 3) * 4" Ctx.initial = .ok (.num 20, Ctx.initial) ∧
    runWith M 20 "2 ** 3 ** 2" Ctx.initial = .ok (.num 512, Ctx.initial) :=
  ⟨rfl, rfl, rfl⟩

/-- C6 witness: the theorem instantiated at the concrete stand-in bundle. -/
theorem c6_precedence_examples_witness :
    runWith M0 20 "2 + 3 * 4" Ctx.initial = .ok (.num 14, Ctx.initial) :=
  (c6_precedence_examples M0).1

/-- C1 (code_bug): the function-definition round-trip is unimplemented.
Parsing `function add(a,b) return a+b` fails with "Unexpected token:
function" because parseStatement never dispatches on the Function keyword;
calling `add(2,3)` afterwards fails with "Unknown function: add with 2
arguments" instead of yielding 5; and the FunctionDefNode visitor itself
throws "Function definitions not yet implemented". -/
theorem c1_function_roundtrip_unimplemented :
    runWith M0 20 "function add(a,b) return a+b" Ctx.initial =
      .error (.parseErr "Unexpected token: function") ∧
    runWith M0 20 "add(2,3)" Ctx.initial =
      .error (.evalErr (.runtime "Unknown function: add with 2 arguments")) ∧
    eval M0 10 (.functionDef "add" ["a", "b"]
        (.returnN (some (.binaryOp (.identifier "a") .add (.identifier "b")))))
        (initialSt Ctx.initial) =
      .error (.runtime "Function definitions not yet implemented") :=
  ⟨rfl, rfl, rfl⟩

/-- C2 (code_bug): block evaluation pushes and pops no scope.  Evaluating
`{ x = 5 }` in a fresh context writes x into the enclosing global scope
(depth stays 1 because nothing was pushed), and x remains visible with value
5 after the block exits, contradicting the claimed scope discipline. -/
theorem c2_block_pushes_no_scope :
    runWith M0 20 "\x7b x = 5 \x7d" Ctx.initial =
      .ok (.num 5, { scopes := [[("x", .num 5)]], funcs := [] }) ∧
    runWith M0 20 "x" { scopes := [[("x", .num 5)]], funcs := [] } =
      .ok (.num 5, { scopes := [[("x", .num 5)]], funcs := [] }) :=
  ⟨rfl, rfl⟩

/-- C3 counterexample: the source text `"1" == 1` compares a String against a
Number (different variants), yet evaluates to Boolean true, refuting
"whenever l and r have different variants, l == r evaluates to false". -/
theorem c3_cross_variant_equality_true :
    Value.tag (.str "1") ≠ Value.tag (.num 1) ∧
    runWith M0 20 "\x22\x31\x22 == 1" Ctx.initial = .ok (.boolean true, Ctx.initial) :=
  ⟨by decide, rfl⟩

/-- C3 (amended): the evaluator's `==` compares numeric coercions — for all
values l and r it yields Boolean (toNumber l = toNumber r), so cross-variant
`==` can be true; the Value-level operator== (which the evaluator's `==` does
not use) is the one that compares within the same variant only and is false
across variants. -/
theorem c3_equality_is_numeric_coercion :
    (∀ (M : MathFns) (l r : Value),
      binArith M .equal l r = .ok (.boolean (decide (l.toNumber = r.toNumber)))) ∧
    (∀ l r : Value, l.tag ≠ r.tag → l.veq r = false) := by
  constructor
  · intro M l r; rfl
  · intro l r h
    cases l <;> cases r <;> first
      | rfl
      | exact absurd rfl h

/-- C3 witness: the amended theorem applied at Number 1 and Boolean true. -/
theorem c3_equality_is_numeric_coercion_witness :
    binArith M0 .equal (.num 1) (.boolean true) = .ok (.boolean true) ∧
    Value.veq (.num 1) (.boolean true) = false :=
  ⟨c3_equality_is_numeric_coercion.1 M0 (.num 1) (.boolean true),
   c3_equality_is_numeric_coercion.2 (.num 1) (.boolean true) (by decide)⟩

/-- C4 (code_bug): the value of a while construct is the final (false)
condition value, not the last body value and not Null.  `while (1 < 0) 42`
evaluates to Boolean false rather than Null, and `while (x < 3) x = x + 1`
from x = 0 evaluates to Boolean false rather than 3, because the inner
evaluate call on the condition overwrites m_result before the loop breaks —
contradicting the source's own comment "While loops should not return the
condition value". -/
theorem c4_while_yields_condition_value :
    runWith M0 20 "while (1 < 0) 42" Ctx.initial =
      .ok (.boolean false, Ctx.initial) ∧
    runWith M0 20 "while (x < 3) x = x + 1"
        { scopes := [[("x", .num 0)]], funcs := [] } =
      .ok (.boolean false, { scopes := [[("x", .num 3)]], funcs := [] }) :=
  ⟨rfl, rfl⟩

/-- C5 counterexample: the token sequence of `1 = 2` has a non-identifier
assignment target, yet parse succeeds and returns an Assign node — no parse
error is raised, refuting the claimed parse-time rejection. -/
theorem c5_parse_accepts_nonidentifier_target :
    parseSource "1 = 2" =
      .ok (.binaryOp (.literal (.num 1)) .assign (.literal (.num 2))) :=
  rfl

/-- C5 (amended): the parser accepts any expression as assignment target;
the invalid-assignment-target rejection happens at evaluation time, where
evaluating an assignment whose left side is not an identifier always fails
with the runtime error "Invalid assignment target". -/
theorem c5_assignment_target_checked_at_evaluation :
    runWith M0 20 "1 = 2" Ctx.initial =
      .error (.evalErr (.runtime "Invalid assignment target")) ∧
    (∀ (M : MathFns) (f : Nat) (lhs : AST) (op : BinaryOperator) (rhs : AST)
      (st : St), isAssignOp op = true → notIdentifier lhs = true →
      eval M (f + 1) (.binaryOp lhs op rhs) st =
        .error (.runtime "Invalid assignment target")) := by
  refine ⟨rfl, ?_⟩
  intro M f lhs op rhs st hop hl
  cases lhs <;> simp [notIdentifier] at hl <;> simp [eval, hop]

/-- C5 witness: the amended theorem applied to the assignment `1 = 2`. -/
theorem c5_assignment_target_checked_at_evaluation_witness :
    eval M0 1 (.binaryOp (.literal (.num 1)) .assign (.literal (.num 2)))
      (initialSt Ctx.initial) = .error (.runtime "Invalid assignment target") :=
  c5_assignment_target_checked_at_evaluation.2 M0 0 (.literal (.num 1)) .assign
    (.literal (.num 2)) (initialSt Ctx.initial) rfl rfl

/-- C7 counterexample: the spec's example strings do not even reach the
evaluator — the parser has no case for the True/False keyword tokens, so
`false and (1/0)` and `true or (1/0)` fail with a parse error rather than
completing. -/
theorem c7_example_strings_fail_to_parse :
    runWith M0 20 "false and (1/0)" Ctx.initial =
      .error (.parseErr "Unexpected token: false") ∧
    runWith M0 20 "true or (1/0)" Ctx.initial =
      .error (.parseErr "Unexpected token: true") :=
  ⟨rfl, rfl⟩

/-- C7 (amended): the evaluator's and/or do short-circuit — a falsy left
operand of `and` (dually a truthy left operand of `or`) fixes the result
without the right operand being evaluated (the conclusion holds for every
right operand r); the equivalent sources `0 and (1/0)` and `1 or (1/0)`
complete without a division error, while the literal keywords true/false are
rejected by the parser. -/
theorem c7_short_circuit :
    (∀ (M : MathFns) (f : Nat) (l r : AST) (st st1 : St),
      eval M f l { st with hasReturned := false, result := .null } = .ok st1 →
      st1.result.toBool = false →
      eval M (f + 1) (.binaryOp l .andOp r) st =
        .ok { st1 with result := .boolean false }) ∧
    (∀ (M : MathFns) (f : Nat) (l r : AST) (st st1 : St),
      eval M f l { st with hasReturned := false, result := .null } = .ok st1 →
      st1.result.toBool = true →
      eval M (f + 1) (.binaryOp l .orOp r) st =
        .ok { st1 with result := .boolean true }) ∧
    (∀ M : MathFns,
      runWith M 20 "0 and (1/0)" Ctx.initial = .ok (.boolean false, Ctx.initial) ∧
      runWith M 20 "1 or (1/0)" Ctx.initial = .ok (.boolean true, Ctx.initial)) := by
  refine ⟨?_, ?_, fun M => ⟨rfl, rfl⟩⟩
  · intro M f l r st st1 h hb
    simp [eval, isAssignOp, bind, Except.bind, h, hb]
  · intro M f l r st st1 h hb
    simp [eval, isAssignOp, bind, Except.bind, h, hb]

/-- C7 witness: short-circuit applied to `0 and r` with an arbitrary
unevaluated right operand. -/
theorem c7_short_circuit_witness :
    eval M0 2 (.binaryOp (.literal (.num 0)) .andOp (.literal .null))
      (initialSt Ctx.initial) =
      .ok { ctx := Ctx.initial, hasReturned := false, result := .boolean false,
            output := "" } :=
  c7_short_circuit.1 M0 1 (.literal (.num 0)) (.literal .null)
    (initialSt Ctx.initial)
    { ctx := Ctx.initial, hasReturned := false, result := .num 0, output := "" }
    rfl rfl

/-- C8: evaluating l / r, l mod r or l div r with a right operand coercing to
the number 0 always fails, with messages "Division by zero", "Modulo by zero"
and "Integer division by zero" — each containing "zero" — and never returns a
value (no silent Infinity/NaN exists in the rational model). -/
theorem c8_division_by_zero_errors (M : MathFns) (f : Nat) (l r : Value)
    (st : St) (h : r.toNumber = 0) :
    eval M (f + 2) (.binaryOp (.literal l) .divide (.literal r)) st =
      .error (.runtime "Division by zero") ∧
    eval M (f + 2) (.binaryOp (.literal l) .modOp (.literal r)) st =
      .error (.runtime "Modulo by zero") ∧
    eval M (f + 2) (.binaryOp (.literal l) .divOp (.literal r)) st =
      .error (.runtime "Integer division by zero") ∧
    containsSub "Division by zero" "zero" = true ∧
    containsSub "Modulo by zero" "zero" = true ∧
    containsSub "Integer division by zero" "zero" = true := by
  refine ⟨?_, ?_, ?_, by decide, by decide, by decide⟩ <;>
    simp [eval, isAssignOp, binArith, bind, Except.bind, h]

/-- C8 witness: the theorem applied at 5 / 0, 5 mod 0, 5 div 0. -/
theorem c8_division_by_zero_errors_witness :
    eval M0 2 (.binaryOp (.literal (.num 5)) .divide (.literal (.num 0)))
      (initialSt Ctx.initial) = .error (.runtime "Division by zero") :=
  (c8_division_by_zero_errors M0 0 (.num 5) (.num 0) (initialSt Ctx.initial) rfl).1

/-- Each Context operation preserves a nonempty scope stack. -/
theorem applyOp_scopes_nonempty (c : Ctx) (op : CtxOp)
    (h : 1 ≤ c.scopes.length) : 1 ≤ (applyOp c op).scopes.length := by
  cases op with
  | push => simp [applyOp, Ctx.pushScope]
  | pop =>
    simp only [applyOp, Ctx.popScope]
    split
    · next hl => simp only [List.length_tail]; omega
    · exact h
  | clearOp => simp [applyOp, Ctx.clear]
  | setVar n v =>
    simp only [applyOp, Ctx.setVariable]
    rcases hc : c.scopes with _ | ⟨sc, rest⟩
    · rw [hc] at h; simp at h
    · simp [hc]
  | removeVar n =>
    simp only [applyOp, Ctx.removeVariable]
    rcases hc : c.scopes with _ | ⟨sc, rest⟩
    · rw [hc] at h; simp at h
    · simp [hc]

/-- A whole sequence of Context operations preserves a nonempty scope
stack. -/
theorem applyOps_scopes_nonempty (ops : List CtxOp) (c : Ctx)
    (h : 1 ≤ c.scopes.length) : 1 ≤ (applyOps c ops).scopes.length := by
  induction ops generalizing c with
  | nil => exact h
  | cons op rest ih => exact ih (applyOp c op) (applyOp_scopes_nonempty c op h)

/-- C9: the Context scope-stack invariant — after construction and any
sequence of pushScope, popScope, clear, setVariable and removeVariable
operations at least one scope remains; popScope on a context holding only
the global scope leaves it unchanged; clear restores exactly one empty scope
(and an empty function table), i.e. the freshly constructed context. -/
theorem c9_context_scope_invariant :
    (∀ ops : List CtxOp, 1 ≤ (applyOps Ctx.initial ops).scopes.length) ∧
    (∀ c : Ctx, c.scopes.length = 1 → c.popScope = c) ∧
    (∀ c : Ctx, c.clear = Ctx.initial) := by
  refine ⟨fun ops => applyOps_scopes_nonempty ops Ctx.initial le_rfl, ?_, fun c => rfl⟩
  intro c h
  simp [Ctx.popScope, h]

/-- C9 witness: the invariant applied to a concrete operation sequence and
to the freshly constructed context. -/
theorem c9_context_scope_invariant_witness :
    1 ≤ (applyOps Ctx.initial
      [.push, .setVar "x" (.num 1), .pop, .pop, .clearOp, .removeVar "x"]).scopes.length ∧
    Ctx.initial.popScope = Ctx.initial ∧
    Ctx.initial.clear = Ctx.initial :=
  ⟨c9_context_scope_invariant.1 _,
   c9_context_scope_invariant.2.1 Ctx.initial rfl,
   c9_context_scope_invariant.2.2 Ctx.initial⟩

/-- C10: whenever evaluation of a logical and/or node succeeds, the result
is a Boolean value (derived by truthiness), never the original operand:
concretely, `1 or 2` evaluates to Boolean true, not to the Number 1. -/
theorem c10_logical_result_is_boolean :
    (∀ (M : MathFns) (f : Nat) (l r : AST) (st stR : St),
      eval M f (.binaryOp l .andOp r) st = .ok stR →
      ∃ b, stR.result = .boolean b) ∧
    (∀ (M : MathFns) (f : Nat) (l r : AST) (st stR : St),
      eval M f (.binaryOp l .orOp r) st = .ok stR →
      ∃ b, stR.result = .boolean b) ∧
    (∀ M : MathFns,
      runWith M 20 "1 or 2" Ctx.initial = .ok (.boolean true, Ctx.initial)) := by
  refine ⟨?_, ?_, fun M => rfl⟩
  · intro M f l r st stR h
    match f with
    | 0 => simp [eval] at h
    | f + 1 =>
      simp only [eval, isAssignOp, Bool.false_eq_true, if_false, bind, Except.bind] at h
      rcases heval : eval M f l { st with hasReturned := false, result := .null } with e | st1 <;>
        rw [heval] at h
      · exact absurd h (by simp)
      · by_cases hb : st1.result.toBool = false
        · simp only [hb, if_true] at h
          exact ⟨false, by rw [← Except.ok.inj h]⟩
        · simp only [hb, if_false] at h
          rcases heval2 : eval M f r st1 with e2 | st2 <;> rw [heval2] at h
          · exact absurd h (by simp)
          · exact ⟨st2.result.toBool, by rw [← Except.ok.inj h]⟩
  · intro M f l r st stR h
    match f with
    | 0 => simp [eval] at h
    | f + 1 =>
      simp only [eval, isAssignOp, Bool.false_eq_true, if_false, bind, Except.bind] at h
      rcases heval : eval M f l { st with hasReturned := false, result := .null } with e | st1 <;>
        rw [heval] at h
      · exact absurd h (by simp)
      · by_cases hb : st1.result.toBool = true
        · simp only [hb, if_true] at h
          exact ⟨true, by rw [← Except.ok.inj h]⟩
        · simp only [hb, if_false] at h
          rcases heval2 : eval M f r st1 with e2 | st2 <;> rw [heval2] at h
          · exact absurd h (by simp)
          · exact ⟨st2.result.toBool, by rw [← Except.ok.inj h]⟩

/-- C10 witness: the theorem applied to the evaluation of `1 and 2`. -/
theorem c10_logical_result_is_boolean_witness :
    ∃ b, ({ ctx := Ctx.initial, hasReturned := false, result := .boolean true,
            output := "" } : St).result = .boolean b :=
  c10_logical_result_is_boolean.1 M0 2 (.literal (.num 1)) (.literal (.num 2))
    (initialSt Ctx.initial)
    { ctx := Ctx.initial, hasReturned := false, result := .boolean true, output := "" }
    rfl

end GlossAI
